import Mathlib

/-!
Verification of the SGX remote-attestation verifier in
`src/attestation/src/report.rs` (teaclave).

Bytes are modelled as `List Nat` (each element a `u8` value), multi-byte
scalars as `Nat` with explicit little-endian recombination, and signed
second counts as `Int`.  Fallible Rust code returning `Result` is modelled
with `Option` (all parse failures in the source are the single
`bail!("Quote parsing error.")`, the `ParseError` of the taxonomy) or with
an explicit error enumeration where the source distinguishes errors.
-/

namespace TeaclaveAttestation

/-- The sub-slice `bytes[pos .. pos + n]`, as returned by the `take`
closure in `report.rs`. -/
def slice (bytes : List Nat) (pos n : Nat) : List Nat :=
  (bytes.drop pos).take n

/-- The `take` closure shared by `SgxEnclaveReport::parse_from` and
`SgxQuote::parse_from`: when `n > 0 && bytes.len() >= pos + n` it yields
`&bytes[pos..pos + n]` together with the advanced cursor `pos + n`;
otherwise it fails with `bail!("Quote parsing error.")`, modelled `none`. -/
def takeAt (bytes : List Nat) (pos n : Nat) : Option (List Nat × Nat) :=
  if 0 < n ∧ pos + n ≤ bytes.length then some (slice bytes pos n, pos + n) else none

/-- Little-endian `u16::from_le_bytes` on a 2-byte slice. -/
def u16_from_le (b : List Nat) : Nat :=
  b.getD 0 0 + 256 * b.getD 1 0

/-- Little-endian `u32::from_le_bytes` on a 4-byte slice. -/
def u32_from_le (b : List Nat) : Nat :=
  b.getD 0 0 + 256 * b.getD 1 0 + 65536 * b.getD 2 0 + 16777216 * b.getD 3 0

/-- The measured identity emitted by the hardware (struct
`SgxEnclaveReport` in `report.rs`).  Fixed-width byte arrays are lists
whose lengths are fixed by the parser. -/
structure SgxEnclaveReport where
  cpu_svn : List Nat
  misc_select : Nat
  attributes : List Nat
  mr_enclave : List Nat
  mr_signer : List Nat
  isv_prod_id : Nat
  isv_svn : Nat
  report_data : List Nat
deriving DecidableEq

/-- `SgxEnclaveReport::parse_from`.  A cursor `pos` starts at 0 and each
field is read with `take`; the reserved regions are taken and discarded.
The final `ensure!(pos == bytes.len(), ...)` is the trailing guard.  The
copy loop filling `report_data` from the 64-byte slice always succeeds
(the iterator ranges over exactly 64 elements), so it is the slice. -/
def SgxEnclaveReport.parse_from (bytes : List Nat) : Option SgxEnclaveReport := do
  let (cpu_svn, pos) ← takeAt bytes 0 16
  let (misc, pos) ← takeAt bytes pos 4
  let (_reserved1, pos) ← takeAt bytes pos 28
  let (attributes, pos) ← takeAt bytes pos 16
  let (mr_enclave, pos) ← takeAt bytes pos 32
  let (_reserved2, pos) ← takeAt bytes pos 32
  let (mr_signer, pos) ← takeAt bytes pos 32
  let (_reserved3, pos) ← takeAt bytes pos 96
  let (prod, pos) ← takeAt bytes pos 2
  let (svn, pos) ← takeAt bytes pos 2
  let (_reserved4, pos) ← takeAt bytes pos 60
  let (report_data, pos) ← takeAt bytes pos 64
  if pos = bytes.length then
    some ⟨cpu_svn, u32_from_le misc, attributes, mr_enclave, mr_signer,
          u16_from_le prod, u16_from_le svn, report_data⟩
  else
    none

/-- Enum `SgxEpidQuoteSigType`. -/
inductive SgxEpidQuoteSigType where
  | Unlinkable
  | Linkable
deriving DecidableEq

/-- Enum `SgxEcdsaQuoteAkType`. -/
inductive SgxEcdsaQuoteAkType where
  | P256_256
  | P384_384
deriving DecidableEq

/-- Enum `SgxQuoteVersion`. -/
inductive SgxQuoteVersion where
  | V1 (t : SgxEpidQuoteSigType)
  | V2 (t : SgxEpidQuoteSigType)
  | V3 (t : SgxEcdsaQuoteAkType)
deriving DecidableEq

/-- Enum `SgxQuoteStatus`. -/
inductive SgxQuoteStatus where
  | OK
  | AttestationKeyRevoked
  | TcbOutOfDate
  | ConfigurationNeeded
  | TcbOutOfDateAndConfigurationNeeded
  | SignatureInvalid
  | SwHardeningNeeded
  | UnknownBadStatus
deriving DecidableEq

/-- The impl `From<&str> for SgxQuoteStatus` in `report.rs`: a total
match on the status string with a catch-all arm. -/
def SgxQuoteStatus.fromString (status : String) : SgxQuoteStatus :=
  if status = "OK" then SgxQuoteStatus.OK
  else if status = "KEY_REVOKED" then SgxQuoteStatus.AttestationKeyRevoked
  else if status = "GROUP_OUT_OF_DATE" ∨ status = "TCB_OUT_OF_DATE" then
    SgxQuoteStatus.TcbOutOfDate
  else if status = "CONFIGURATION_NEEDED" then SgxQuoteStatus.ConfigurationNeeded
  else if status = "OUT_OF_DATE_CONFIGURATION_NEEDED" then
    SgxQuoteStatus.TcbOutOfDateAndConfigurationNeeded
  else if status = "SIGNATURE_INVALID" then SgxQuoteStatus.SignatureInvalid
  else if status = "SW_HARDENING_NEEDED" then SgxQuoteStatus.SwHardeningNeeded
  else SgxQuoteStatus.UnknownBadStatus

/-- Struct `SgxQuote`.  `Uuid::from_slice` on a 16-byte slice always
succeeds and keeps the bytes in order, so `qe_vendor_id` is the 16-byte
slice itself. -/
structure SgxQuote where
  version : SgxQuoteVersion
  gid : Nat
  isv_svn_qe : Nat
  isv_svn_pce : Nat
  qe_vendor_id : List Nat
  user_data : List Nat
  isv_enclave_report : SgxEnclaveReport
deriving DecidableEq

/-- The `match` on the version word in `SgxQuote::parse_from`, factored
out as a named function: for a legal version (1, 2 or 3) the arm reads
the next two bytes with `take(2)` and decodes the signature type
(versions 1 and 2: 0 is Unlinkable and 1 is Linkable) or the attestation
key type (version 3: 2 is P256_256 and 3 is P384_384); any other value
and any other version `bail!("Quote parsing error.")`. -/
def parseVersion (bytes : List Nat) (pos : Nat) (v : Nat) :
    Option (SgxQuoteVersion × Nat) :=
  if v = 1 then
    (takeAt bytes pos 2).bind fun sp =>
      if u16_from_le sp.1 = 0 then some (SgxQuoteVersion.V1 SgxEpidQuoteSigType.Unlinkable, sp.2)
      else if u16_from_le sp.1 = 1 then some (SgxQuoteVersion.V1 SgxEpidQuoteSigType.Linkable, sp.2)
      else none
  else if v = 2 then
    (takeAt bytes pos 2).bind fun sp =>
      if u16_from_le sp.1 = 0 then some (SgxQuoteVersion.V2 SgxEpidQuoteSigType.Unlinkable, sp.2)
      else if u16_from_le sp.1 = 1 then some (SgxQuoteVersion.V2 SgxEpidQuoteSigType.Linkable, sp.2)
      else none
  else if v = 3 then
    (takeAt bytes pos 2).bind fun sp =>
      if u16_from_le sp.1 = 2 then some (SgxQuoteVersion.V3 SgxEcdsaQuoteAkType.P256_256, sp.2)
      else if u16_from_le sp.1 = 3 then some (SgxQuoteVersion.V3 SgxEcdsaQuoteAkType.P384_384, sp.2)
      else none
  else none

/-- `SgxQuote::parse_from`.  The version word at offset 0 selects how the
word at offset 2 is decoded (`take(2)` happens inside each legal match
arm, see `parseVersion`); the remaining fields are read at fixed offsets
and the final 384 bytes are delegated to `SgxEnclaveReport::parse_from`,
followed by `ensure!(pos == bytes.len())`. -/
def SgxQuote.parse_from (bytes : List Nat) : Option SgxQuote := do
  let (vb, pos) ← takeAt bytes 0 2
  let (version, pos) ← parseVersion bytes pos (u16_from_le vb)
  let (gid, pos) ← takeAt bytes pos 4
  let (svnqe, pos) ← takeAt bytes pos 2
  let (svnpce, pos) ← takeAt bytes pos 2
  let (qe_vendor_id, pos) ← takeAt bytes pos 16
  let (user_data, pos) ← takeAt bytes pos 20
  let (erb, pos) ← takeAt bytes pos 384
  let isv_enclave_report ← SgxEnclaveReport.parse_from erb
  if pos = bytes.length then
    some ⟨version, u32_from_le gid, u16_from_le svnqe, u16_from_le svnpce,
          qe_vendor_id, user_data, isv_enclave_report⟩
  else
    none

/-- Modelled from the spec: the closed error taxonomy of section 7
(`crate::AttestationError` lives outside `src/`; only its use sites are in
`report.rs`).  `ParseError` is the quote or enclave-report parse failure,
`CertParseError` the X.509 walk failure, `ReportError` the JSON, field,
timestamp, freshness and key-binding failures, `WebpkiError` the chain and
signature rejections.  `TimeError` stands for the bare
`anyhow!("Cannot convert time.")` at the `webpki::Time` conversion, which
the spec taxonomy does not list. -/
inductive AttestationError where
  | ParseError
  | CertParseError
  | ReportError
  | WebpkiError
  | TimeError
deriving DecidableEq

/-- The freshness block of `from_cert`:
`u64::try_from((now - ts).num_seconds())?`.  Instants are integer
nanoseconds since the Unix epoch of the naive-UTC date-times; chrono
`Duration::num_seconds` is the whole-second count truncated toward zero
(`Int.tdiv`), an `i64`, and `u64::try_from` on an `i64` fails exactly when
it is negative. -/
def quote_freshness (ts now : Int) : Option Nat :=
  let s : Int := (now - ts).tdiv 1000000000
  if 0 ≤ s then some s.toNat else none

/-- Struct `AttestationReport`; `freshness` is
`Duration::from_secs(quote_freshness)`, kept as the second count. -/
structure AttestationReport where
  freshness : Nat
  sgx_quote_status : SgxQuoteStatus
  sgx_quote_body : SgxQuote
deriving DecidableEq

/-- The results of the external library calls performed by
`AttestationReport::from_cert` on one `(cert, report_ca_cert)` input and
one clock reading.  All control flow of `from_cert` itself is in the
function below; these fields only record what the foreign calls returned
on this input:

* `x509`: `yasna::parse_der(cert, X509::load)` together with the pure
  tuple walk to `pub_k.to_bytes()` (the raw public-key bit string) and the
  extension `payload` (`super::cert` is outside `src/`; modelled from the
  spec sentence: the DER walk yields the raw SubjectPublicKeyInfo key bits
  and exactly one extension payload, or fails);
* `endorsed_json_ok`: `serde_json::from_slice::<EndorsedAttestationReport>(payload)`;
* `signing_cert_ok`: `webpki::EndEntityCert::from(signing_cert)`;
* `root_ca_accepted`: `rustls::RootCertStore::add(report_ca_cert)`;
* `time_convert_ok`: `webpki::Time::try_from(SystemTime::now())`;
* `chain_ok`: `verify_is_valid_tls_server_cert`;
* `sig_ok`: `verify_signature(RSA_PKCS1_2048_8192_SHA256, report, signature)`;
* `attn_json_ok`: `serde_json::from_slice::<Value>(report)`;
* `timestamp_str`: `attn_report["timestamp"].as_str()`;
* `timestamp_ns`: `DateTime::parse_from_str(timestamp + "+0000", "%Y-%m-%dT%H:%M:%S%.f%z")`
  followed by `.naive_utc()`, as epoch nanoseconds;
* `now_ns`: `SystemTime::now()` as naive-UTC epoch nanoseconds;
* `status_str`: `attn_report["isvEnclaveQuoteStatus"].as_str()`;
* `quote_b64`: `attn_report["isvEnclaveQuoteBody"].as_str()`;
* `quote_raw`: `base64::decode(quote_b64)`. -/
structure FromCertEnv where
  x509 : Option (List Nat × List Nat)
  endorsed_json_ok : Bool
  signing_cert_ok : Bool
  root_ca_accepted : Bool
  time_convert_ok : Bool
  chain_ok : Bool
  sig_ok : Bool
  attn_json_ok : Bool
  timestamp_str : Option String
  timestamp_ns : Option Int
  now_ns : Int
  status_str : Option String
  quote_b64 : Option String
  quote_raw : Option (List Nat)
deriving DecidableEq

/-- Outcome of one `from_cert` call: `Ok`, a typed `Err`, or a Rust panic
(`crash`). -/
inductive FromCertResult where
  | ok (r : AttestationReport)
  | err (e : AttestationError)
  | crash
deriving DecidableEq

/-- `AttestationReport::from_cert`, line for line.  Each `?` on a foreign
call propagates the error classified by the taxonomy above;
`root_store.add(...).expect("Failed to add CA")` panics (`crash`) when the
root store rejects the caller-supplied CA certificate, and
`raw_pub_k[0]` / `&raw_pub_k.as_slice()[1..]` panic when the extracted
public-key bit string is empty.  The key-binding failure is the explicit
`bail!(AttestationError::ReportError)` of the source. -/
def AttestationReport.from_cert (env : FromCertEnv) : FromCertResult :=
  match env.x509 with
  | none => FromCertResult.err AttestationError.CertParseError
  | some (raw_pub_k, _payload) =>
    if env.endorsed_json_ok = false then FromCertResult.err AttestationError.ReportError
    else if env.signing_cert_ok = false then FromCertResult.err AttestationError.WebpkiError
    else if env.root_ca_accepted = false then FromCertResult.crash
    else if env.time_convert_ok = false then FromCertResult.err AttestationError.TimeError
    else if env.chain_ok = false then FromCertResult.err AttestationError.WebpkiError
    else if env.sig_ok = false then FromCertResult.err AttestationError.WebpkiError
    else if env.attn_json_ok = false then FromCertResult.err AttestationError.ReportError
    else
      match env.timestamp_str with
      | none => FromCertResult.err AttestationError.ReportError
      | some _ =>
        match env.timestamp_ns with
        | none => FromCertResult.err AttestationError.ReportError
        | some ts =>
          match quote_freshness ts env.now_ns with
          | none => FromCertResult.err AttestationError.ReportError
          | some fresh =>
            match env.status_str with
            | none => FromCertResult.err AttestationError.ReportError
            | some st =>
              match env.quote_b64 with
              | none => FromCertResult.err AttestationError.ReportError
              | some _ =>
                match env.quote_raw with
                | none => FromCertResult.err AttestationError.ReportError
                | some quote_raw =>
                  match SgxQuote.parse_from quote_raw with
                  | none => FromCertResult.err AttestationError.ParseError
                  | some sgx_quote_body =>
                    match raw_pub_k with
                    | [] => FromCertResult.crash
                    | b0 :: rest =>
                      if b0 = 4 ∧ rest = sgx_quote_body.isv_enclave_report.report_data then
                        FromCertResult.ok
                          ⟨fresh, SgxQuoteStatus.fromString st, sgx_quote_body⟩
                      else
                        FromCertResult.err AttestationError.ReportError

/-- Spec-side definition, following the words of the spec (section 3):
the freshness is the number of whole seconds between the report timestamp
(UTC) and the current system time, saturated at zero when the timestamp is
in the future.  Instants in epoch nanoseconds. -/
def specFreshnessSeconds (ts now : Int) : Nat :=
  if ts ≤ now then ((now - ts) / 1000000000).toNat else 0

/-- The reserved regions of the enclave report, offsets relative to the
enclave-report start: 20..48, 96..128, 160..256 and 260..320. -/
def reservedEnclaveIdx (i : Nat) : Prop :=
  (20 ≤ i ∧ i < 48) ∨ (96 ≤ i ∧ i < 128) ∨ (160 ≤ i ∧ i < 256) ∨ (260 ≤ i ∧ i < 320)

/-- The same regions as offsets into a 432-byte quote, whose embedded
enclave report starts at offset 48. -/
def reservedQuoteIdx (i : Nat) : Prop :=
  48 ≤ i ∧ reservedEnclaveIdx (i - 48)

theorem length_slice {bytes : List Nat} {pos n : Nat} (h : pos + n ≤ bytes.length) :
    (slice bytes pos n).length = n := by
  simp only [slice, List.length_take, List.length_drop]
  omega

theorem getD_slice {bytes : List Nat} {pos n i : Nat} (hi : i < n)
    (h : pos + n ≤ bytes.length) : (slice bytes pos n).getD i 0 = bytes.getD (pos + i) 0 := by
  have h1 : i < (slice bytes pos n).length := by rw [length_slice h]; exact hi
  have h2 : pos + i < bytes.length := by omega
  rw [List.getD_eq_getElem _ _ h1, List.getD_eq_getElem _ _ h2]
  simp [slice]

/-- Two byte strings agreeing pointwise on `[pos, pos + n)` have the same
slice there. -/
theorem slice_congr {b1 b2 : List Nat} {pos n : Nat}
    (h1 : pos + n ≤ b1.length) (h2 : pos + n ≤ b2.length)
    (h : ∀ i, pos ≤ i → i < pos + n → b1.getD i 0 = b2.getD i 0) :
    slice b1 pos n = slice b2 pos n := by
  apply List.ext_getElem
  · rw [length_slice h1, length_slice h2]
  · intro i hi1 hi2
    have hi : i < n := by rwa [length_slice h1] at hi1
    have e1 : (slice b1 pos n).getD i 0 = (slice b2 pos n).getD i 0 := by
      rw [getD_slice hi h1, getD_slice hi h2]
      exact h (pos + i) (by omega) (by omega)
    rwa [List.getD_eq_getElem _ _ hi1, List.getD_eq_getElem _ _ hi2] at e1

/-- Taking a slice of a slice is a slice at the composed offset. -/
theorem slice_slice {bytes : List Nat} (a n b m : Nat) (h : b + m ≤ n) :
    slice (slice bytes a n) b m = slice bytes (a + b) m := by
  simp only [slice, List.drop_take, List.take_take, List.drop_drop]
  congr 1
  omega

/-- The enclave report determined by a byte region of length 384: each
field is the slice of the region at the fixed offset of the source. -/
def enclaveOf (b : List Nat) : SgxEnclaveReport :=
  ⟨slice b 0 16, u32_from_le (slice b 16 4), slice b 48 16, slice b 64 32,
   slice b 128 32, u16_from_le (slice b 256 2), u16_from_le (slice b 258 2),
   slice b 320 64⟩

/-- When the guard of the take closure holds, it returns the slice and
the advanced cursor. -/
theorem takeAt_eq {bytes : List Nat} {pos n : Nat} (hn : 0 < n)
    (h : pos + n ≤ bytes.length) :
    takeAt bytes pos n = some (slice bytes pos n, pos + n) := by
  simp [takeAt, hn, h]

set_option maxHeartbeats 1600000 in
/-- On a region of exactly 384 bytes the enclave-report parser succeeds
and returns the fixed-offset slices. -/
theorem enclave_parse_of_length {b : List Nat} (h : b.length = 384) :
    SgxEnclaveReport.parse_from b = some (enclaveOf b) := by
  have t1 := @takeAt_eq b 0 16 (by norm_num) (by omega)
  have t2 := @takeAt_eq b 16 4 (by norm_num) (by omega)
  have t3 := @takeAt_eq b 20 28 (by norm_num) (by omega)
  have t4 := @takeAt_eq b 48 16 (by norm_num) (by omega)
  have t5 := @takeAt_eq b 64 32 (by norm_num) (by omega)
  have t6 := @takeAt_eq b 96 32 (by norm_num) (by omega)
  have t7 := @takeAt_eq b 128 32 (by norm_num) (by omega)
  have t8 := @takeAt_eq b 160 96 (by norm_num) (by omega)
  have t9 := @takeAt_eq b 256 2 (by norm_num) (by omega)
  have t10 := @takeAt_eq b 258 2 (by norm_num) (by omega)
  have t11 := @takeAt_eq b 260 60 (by norm_num) (by omega)
  have t12 := @takeAt_eq b 320 64 (by norm_num) (by omega)
  simp [SgxEnclaveReport.parse_from, t1, t2, t3, t4, t5, t6, t7, t8, t9, t10,
    t11, t12, h, enclaveOf]

/-- The version and signature-type decoding of `SgxQuote::parse_from` as
a function of the two little-endian words at offsets 0 and 2. -/
def quoteVersionOf (v d : Nat) : Option SgxQuoteVersion :=
  if v = 1 then
    (if d = 0 then some (SgxQuoteVersion.V1 SgxEpidQuoteSigType.Unlinkable)
     else if d = 1 then some (SgxQuoteVersion.V1 SgxEpidQuoteSigType.Linkable)
     else none)
  else if v = 2 then
    (if d = 0 then some (SgxQuoteVersion.V2 SgxEpidQuoteSigType.Unlinkable)
     else if d = 1 then some (SgxQuoteVersion.V2 SgxEpidQuoteSigType.Linkable)
     else none)
  else if v = 3 then
    (if d = 2 then some (SgxQuoteVersion.V3 SgxEcdsaQuoteAkType.P256_256)
     else if d = 3 then some (SgxQuoteVersion.V3 SgxEcdsaQuoteAkType.P384_384)
     else none)
  else none

/-- The quote determined by a 432-byte input and a decoded version: every
remaining field is the slice at its fixed offset. -/
def quoteOf (version : SgxQuoteVersion) (b : List Nat) : SgxQuote :=
  ⟨version, u32_from_le (slice b 4 4), u16_from_le (slice b 8 2),
   u16_from_le (slice b 10 2), slice b 12 16, slice b 28 20,
   enclaveOf (slice b 48 384)⟩

/-- When the two discriminator bytes are available, `parseVersion` is the
pure header decoding `quoteVersionOf` with the cursor advanced by 2. -/
theorem parseVersion_eq {bytes : List Nat} {pos : Nat} (v : Nat)
    (h : pos + 2 ≤ bytes.length) :
    parseVersion bytes pos v =
      Option.map (fun ver => (ver, pos + 2))
        (quoteVersionOf v (u16_from_le (slice bytes pos 2))) := by
  have t := @takeAt_eq bytes pos 2 (by norm_num) h
  by_cases hv1 : v = 1
  · by_cases hd0 : u16_from_le (slice bytes pos 2) = 0
    · simp [parseVersion, quoteVersionOf, t, hv1, hd0]
    · by_cases hd1 : u16_from_le (slice bytes pos 2) = 1
      · simp [parseVersion, quoteVersionOf, t, hv1, hd0, hd1]
      · simp [parseVersion, quoteVersionOf, t, hv1, hd0, hd1]
  · by_cases hv2 : v = 2
    · by_cases hd0 : u16_from_le (slice bytes pos 2) = 0
      · simp [parseVersion, quoteVersionOf, t, hv1, hv2, hd0]
      · by_cases hd1 : u16_from_le (slice bytes pos 2) = 1
        · simp [parseVersion, quoteVersionOf, t, hv1, hv2, hd0, hd1]
        · simp [parseVersion, quoteVersionOf, t, hv1, hv2, hd0, hd1]
    · by_cases hv3 : v = 3
      · by_cases hd2 : u16_from_le (slice bytes pos 2) = 2
        · simp [parseVersion, quoteVersionOf, t, hv1, hv2, hv3, hd2]
        · by_cases hd3 : u16_from_le (slice bytes pos 2) = 3
          · simp [parseVersion, quoteVersionOf, t, hv1, hv2, hv3, hd2, hd3]
          · simp [parseVersion, quoteVersionOf, t, hv1, hv2, hv3, hd2, hd3]
      · simp [parseVersion, quoteVersionOf, hv1, hv2, hv3]

/-- A successful version decoding read exactly the two discriminator
bytes: the cursor moved to `pos + 2`, which is within the input. -/
theorem parseVersion_pos {bytes : List Nat} {pos v : Nat}
    {out : SgxQuoteVersion × Nat} (h : parseVersion bytes pos v = some out) :
    out.2 = pos + 2 ∧ pos + 2 ≤ bytes.length := by
  unfold parseVersion at h
  split_ifs at h
  all_goals
    first
    | exact absurd h (by simp)
    | (rw [Option.bind_eq_some] at h
       obtain ⟨⟨sb, p2⟩, hsp, hout⟩ := h
       rw [takeAt, Option.ite_none_right_eq_some, Option.some.injEq] at hsp
       obtain ⟨⟨-, hle⟩, hpair⟩ := hsp
       injection hpair with h1 h2
       subst h1
       subst h2
       split_ifs at hout
       all_goals
         (rw [Option.some.injEq] at hout
          exact ⟨by rw [← hout], hle⟩))

set_option maxHeartbeats 1600000 in
/-- On an input of exactly 432 bytes the quote parser is the header
decoding followed by the fixed-offset slices: it succeeds exactly when the
version and discriminator words are legal, and no byte other than the
header influences success. -/
theorem quote_parse_of_length {b : List Nat} (h : b.length = 432) :
    SgxQuote.parse_from b =
      Option.map (fun version => quoteOf version b)
        (quoteVersionOf (u16_from_le (slice b 0 2)) (u16_from_le (slice b 2 2))) := by
  have t0 : takeAt b 0 2 = some (slice b 0 2, 2) :=
    takeAt_eq (by norm_num) (by omega)
  have t2 : takeAt b 4 4 = some (slice b 4 4, 8) :=
    takeAt_eq (by norm_num) (by omega)
  have t3 : takeAt b 8 2 = some (slice b 8 2, 10) :=
    takeAt_eq (by norm_num) (by omega)
  have t4 : takeAt b 10 2 = some (slice b 10 2, 12) :=
    takeAt_eq (by norm_num) (by omega)
  have t5 : takeAt b 12 16 = some (slice b 12 16, 28) :=
    takeAt_eq (by norm_num) (by omega)
  have t6 : takeAt b 28 20 = some (slice b 28 20, 48) :=
    takeAt_eq (by norm_num) (by omega)
  have t7 : takeAt b 48 384 = some (slice b 48 384, 432) :=
    takeAt_eq (by norm_num) (by omega)
  have t8 := enclave_parse_of_length (@length_slice b 48 384 (by omega))
  have hv : parseVersion b 2 (u16_from_le (slice b 0 2)) =
      Option.map (fun ver => (ver, 4))
        (quoteVersionOf (u16_from_le (slice b 0 2)) (u16_from_le (slice b 2 2))) :=
    parseVersion_eq (u16_from_le (slice b 0 2)) (by omega)
  cases hq : quoteVersionOf (u16_from_le (slice b 0 2)) (u16_from_le (slice b 2 2)) with
  | none =>
      simp only [SgxQuote.parse_from, bind, t0, Option.some_bind, hv, hq, Option.map_none']
      rfl
  | some version =>
      simp only [SgxQuote.parse_from, bind, t0, Option.some_bind, hv, hq,
        Option.map_some', t2, t3, t4, t5, t6, t7, t8, h, quoteOf]
      simp

/-- Peeling one monadic step off a successful `Option` chain. -/
theorem bind_step {α β : Type} {x : Option α} {f : α → Option β} {r : β}
    (h : x >>= f = some r) : ∃ a, x = some a ∧ f a = some r :=
  Option.bind_eq_some.mp h

/-- A successful take pinpoints the new cursor and bounds the input. -/
theorem takeAt_some {bytes : List Nat} {pos n : Nat} {l : List Nat} {p : Nat}
    (h : takeAt bytes pos n = some (l, p)) :
    p = pos + n ∧ pos + n ≤ bytes.length := by
  rw [takeAt, Option.ite_none_right_eq_some, Option.some.injEq] at h
  obtain ⟨hc, hpair⟩ := h
  injection hpair with h1 h2
  exact ⟨h2.symm, hc.2⟩

/-- A successful enclave-report parse consumed exactly its whole input:
the input was exactly 384 bytes. -/
theorem enclave_parse_length {b : List Nat} {r : SgxEnclaveReport}
    (hp : SgxEnclaveReport.parse_from b = some r) : b.length = 384 := by
  unfold SgxEnclaveReport.parse_from at hp
  obtain ⟨⟨c1, p1⟩, h1, hp⟩ := bind_step hp
  obtain ⟨⟨c2, p2⟩, h2, hp⟩ := bind_step hp
  obtain ⟨⟨c3, p3⟩, h3, hp⟩ := bind_step hp
  obtain ⟨⟨c4, p4⟩, h4, hp⟩ := bind_step hp
  obtain ⟨⟨c5, p5⟩, h5, hp⟩ := bind_step hp
  obtain ⟨⟨c6, p6⟩, h6, hp⟩ := bind_step hp
  obtain ⟨⟨c7, p7⟩, h7, hp⟩ := bind_step hp
  obtain ⟨⟨c8, p8⟩, h8, hp⟩ := bind_step hp
  obtain ⟨⟨c9, p9⟩, h9, hp⟩ := bind_step hp
  obtain ⟨⟨c10, p10⟩, h10, hp⟩ := bind_step hp
  obtain ⟨⟨c11, p11⟩, h11, hp⟩ := bind_step hp
  obtain ⟨⟨c12, p12⟩, h12, hp⟩ := bind_step hp
  obtain ⟨e1, -⟩ := takeAt_some h1
  obtain ⟨e2, -⟩ := takeAt_some h2
  obtain ⟨e3, -⟩ := takeAt_some h3
  obtain ⟨e4, -⟩ := takeAt_some h4
  obtain ⟨e5, -⟩ := takeAt_some h5
  obtain ⟨e6, -⟩ := takeAt_some h6
  obtain ⟨e7, -⟩ := takeAt_some h7
  obtain ⟨e8, -⟩ := takeAt_some h8
  obtain ⟨e9, -⟩ := takeAt_some h9
  obtain ⟨e10, -⟩ := takeAt_some h10
  obtain ⟨e11, -⟩ := takeAt_some h11
  obtain ⟨e12, -⟩ := takeAt_some h12
  rw [Option.ite_none_right_eq_some] at hp
  have hfin := hp.1
  omega

set_option maxHeartbeats 1600000 in
/-- A successful quote parse consumed exactly its whole input: the input
was exactly 432 bytes. -/
theorem quote_parse_length {b : List Nat} {q : SgxQuote}
    (hp : SgxQuote.parse_from b = some q) : b.length = 432 := by
  simp only [SgxQuote.parse_from, bind, Option.bind_eq_some, takeAt,
    Option.ite_none_right_eq_some, Option.some.injEq, Prod.exists,
    Prod.mk.injEq] at hp
  obtain ⟨vb, p0, ⟨⟨-, hl0⟩, -, hp0⟩, ver, p1, hver,
    gid, p2, ⟨hl2, -, hp2⟩, sq, p3, ⟨hl3, -, hp3⟩, sp, p4, ⟨hl4, -, hp4⟩,
    qv, p5, ⟨hl5, -, hp5⟩, ud, p6, ⟨hl6, -, hp6⟩, er, p7, ⟨hl7, -, hp7⟩,
    rep, -, hfin, -⟩ := hp
  have hpos := parseVersion_pos hver
  omega

/-- A concrete well-formed 432-byte quote: version word 2, signature-type
word 1 (Linkable), every other byte zero. -/
def goodQuoteBytes : List Nat := 2 :: 0 :: 1 :: 0 :: List.replicate 428 0

/-- The value `SgxQuote::parse_from` returns on `goodQuoteBytes`. -/
def goodQuote : SgxQuote :=
  ⟨SgxQuoteVersion.V2 SgxEpidQuoteSigType.Linkable, 0, 0, 0,
   List.replicate 16 0, List.replicate 20 0,
   ⟨List.replicate 16 0, 0, List.replicate 16 0, List.replicate 32 0,
    List.replicate 32 0, 0, 0, List.replicate 64 0⟩⟩

instance (i : Nat) : Decidable (reservedEnclaveIdx i) := by
  unfold reservedEnclaveIdx
  infer_instance

instance (i : Nat) : Decidable (reservedQuoteIdx i) := by
  unfold reservedQuoteIdx
  infer_instance

/-- The same bytes with the byte at quote offset 70 (enclave-report
offset 22, inside the reserved region 20..48) changed from 0 to 99. -/
def tweakedQuoteBytes : List Nat :=
  2 :: 0 :: 1 :: 0 :: (List.replicate 66 0 ++ 99 :: List.replicate 361 0)

/-- Epoch nanoseconds of the UTC instant `2020-02-11 h:mi:s` plus `ns`
nanoseconds; 18303 is the number of days from 1970-01-01 to 2020-02-11
(18262 days for fifty years, twelve of whose Februaries were leap, then
31 days of January and 10 of February). -/
def nanosOn20200211 (h mi s ns : Int) : Int :=
  (((18303 * 24 + h) * 60 + mi) * 60 + s) * 1000000000 + ns

/-- The fixture timestamp `2020-02-11T22:25:59.682915` of the test report
in `report.rs`, parsed as UTC. -/
def fixtureTimestampNs : Int := nanosOn20200211 22 25 59 682915000

/-- The instant `2020-02-11T22:26:09` UTC. -/
def fixtureNowNs : Int := nanosOn20200211 22 26 9 0

/-- An environment in which every external call succeeds: the extracted
public key is the uncompressed point (first byte 4) whose 64 remaining
bytes match the `report_data` of `goodQuote`, the clock reads the fixture
instants above, and the status is the fixture `GROUP_OUT_OF_DATE`. -/
def goodEnv : FromCertEnv :=
  ⟨some (4 :: List.replicate 64 0, []), true, true, true, true, true, true, true,
   some ("2020-02-11T22:25:59.682915"), some fixtureTimestampNs, fixtureNowNs,
   some ("GROUP_OUT_OF_DATE"), some ("base64-quote-body"), some goodQuoteBytes⟩

/-- The report `from_cert` produces in `goodEnv`. -/
def goodReport : AttestationReport := ⟨9, SgxQuoteStatus.TcbOutOfDate, goodQuote⟩

/-- Same as `goodEnv` except that the extracted public key is in the
compressed form 0x02, so the key-binding check must reject it. -/
def badKeyEnv : FromCertEnv :=
  ⟨some (2 :: List.replicate 64 0, []), true, true, true, true, true, true, true,
   some ("2020-02-11T22:25:59.682915"), some fixtureTimestampNs, fixtureNowNs,
   some ("GROUP_OUT_OF_DATE"), some ("base64-quote-body"), some goodQuoteBytes⟩

/-- Same as `goodEnv` except that `rustls::RootCertStore::add` rejects
the caller-supplied root CA certificate. -/
def rejectedRootEnv : FromCertEnv :=
  ⟨some (4 :: List.replicate 64 0, []), true, true, false, true, true, true, true,
   some ("2020-02-11T22:25:59.682915"), some fixtureTimestampNs, fixtureNowNs,
   some ("GROUP_OUT_OF_DATE"), some ("base64-quote-body"), some goodQuoteBytes⟩

/-- Same as `goodEnv` except that the extracted public-key bit string is
empty, so `raw_pub_k[0]` is out of bounds. -/
def emptyKeyEnv : FromCertEnv :=
  ⟨some ([], []), true, true, true, true, true, true, true,
   some ("2020-02-11T22:25:59.682915"), some fixtureTimestampNs, fixtureNowNs,
   some ("GROUP_OUT_OF_DATE"), some ("base64-quote-body"), some goodQuoteBytes⟩

/-- Same as `goodEnv` except that the report timestamp is two seconds
after the current time. -/
def futureEnv : FromCertEnv :=
  ⟨some (4 :: List.replicate 64 0, []), true, true, true, true, true, true, true,
   some ("2020-02-11T22:26:11"), some (fixtureNowNs + 2000000000), fixtureNowNs,
   some ("GROUP_OUT_OF_DATE"), some ("base64-quote-body"), some goodQuoteBytes⟩

/-- The freshness the source computes is the spec-side freshness: on the
success path the truncated whole-second count is the saturated floor
count. -/
theorem quote_freshness_spec {ts now : Int} {fresh : Nat}
    (h : quote_freshness ts now = some fresh) :
    fresh = specFreshnessSeconds ts now := by
  simp only [quote_freshness] at h
  rw [Option.ite_none_right_eq_some, Option.some.injEq] at h
  obtain ⟨hge, hf⟩ := h
  unfold specFreshnessSeconds
  by_cases hle : ts ≤ now
  · rw [if_pos hle, ← hf]
    congr 1
    exact Int.tdiv_eq_ediv (by omega) (by norm_num)
  · rw [if_neg hle, ← hf]
    have h1 : 0 ≤ (ts - now).tdiv 1000000000 :=
      Int.tdiv_nonneg (by omega) (by norm_num)
    have h2 : ts - now = -(now - ts) := by ring
    rw [h2, Int.neg_tdiv] at h1
    omega

/-- Inversion of the success path of `from_cert`: an `Ok` outcome pins
the extracted public key to `0x04` followed by the report data of the
parsed quote, and records where the freshness, status and quote body came
from. -/
theorem from_cert_ok_inv {env : FromCertEnv} {r : AttestationReport}
    (h : AttestationReport.from_cert env = FromCertResult.ok r) :
    ∃ pl ts fresh st,
      env.x509 = some (4 :: r.sgx_quote_body.isv_enclave_report.report_data, pl)
      ∧ env.timestamp_ns = some ts
      ∧ quote_freshness ts env.now_ns = some fresh
      ∧ env.status_str = some st
      ∧ r.freshness = fresh
      ∧ r.sgx_quote_status = SgxQuoteStatus.fromString st
      ∧ ∃ qr, env.quote_raw = some qr
          ∧ SgxQuote.parse_from qr = some r.sgx_quote_body := by
  unfold AttestationReport.from_cert at h
  split at h
  · exact absurd h (by simp)
  · rename_i raw pl hx
    by_cases he : env.endorsed_json_ok = false
    · rw [if_pos he] at h
      exact absurd h (by simp)
    · rw [if_neg he] at h
      by_cases hs : env.signing_cert_ok = false
      · rw [if_pos hs] at h
        exact absurd h (by simp)
      · rw [if_neg hs] at h
        by_cases hr' : env.root_ca_accepted = false
        · rw [if_pos hr'] at h
          exact absurd h (by simp)
        · rw [if_neg hr'] at h
          by_cases ht : env.time_convert_ok = false
          · rw [if_pos ht] at h
            exact absurd h (by simp)
          · rw [if_neg ht] at h
            by_cases hc : env.chain_ok = false
            · rw [if_pos hc] at h
              exact absurd h (by simp)
            · rw [if_neg hc] at h
              by_cases hg : env.sig_ok = false
              · rw [if_pos hg] at h
                exact absurd h (by simp)
              · rw [if_neg hg] at h
                by_cases ha : env.attn_json_ok = false
                · rw [if_pos ha] at h
                  exact absurd h (by simp)
                · rw [if_neg ha] at h
                  split at h
                  · exact absurd h (by simp)
                  · rename_i tss hts
                    split at h
                    · exact absurd h (by simp)
                    · rename_i ts htn
                      split at h
                      · exact absurd h (by simp)
                      · rename_i fresh hqf
                        split at h
                        · exact absurd h (by simp)
                        · rename_i st hst
                          split at h
                          · exact absurd h (by simp)
                          · rename_i qb hqb
                            split at h
                            · exact absurd h (by simp)
                            · rename_i qr hqr
                              split at h
                              · exact absurd h (by simp)
                              · rename_i q hq
                                split at h
                                · exact absurd h (by simp)
                                · rename_i b0 rest hk
                                  split at h
                                  · rename_i hkey
                                    rw [FromCertResult.ok.injEq] at h
                                    obtain ⟨hb0, hrest⟩ := hkey
                                    subst hb0
                                    subst h
                                    refine ⟨pl, ts, fresh, st, ?_, htn, hqf, hst,
                                      rfl, rfl, qr, hqr, hq⟩
                                    rw [hx, hrest]
                                  · exact absurd h (by simp)

/-- C1: if `AttestationReport::from_cert` returns `Ok`, the first byte of
the extracted raw public key is `0x04` and the remaining 64 bytes equal
`sgx_quote_body.isv_enclave_report.report_data`; and when the run reaches
the key-binding check (all earlier stages succeeded and the quote parsed)
with a first byte other than 4 or a differing tail, `from_cert` fails
with `ReportError`. -/
theorem from_cert_key_binding :
    (∀ env r, AttestationReport.from_cert env = FromCertResult.ok r →
      ∃ pl, env.x509 =
        some (4 :: r.sgx_quote_body.isv_enclave_report.report_data, pl))
    ∧ (∀ env b0 rest pl ts fresh st qb qr q tss,
        env.x509 = some (b0 :: rest, pl) →
        env.endorsed_json_ok = true → env.signing_cert_ok = true →
        env.root_ca_accepted = true → env.time_convert_ok = true →
        env.chain_ok = true → env.sig_ok = true → env.attn_json_ok = true →
        env.timestamp_str = some tss → env.timestamp_ns = some ts →
        quote_freshness ts env.now_ns = some fresh →
        env.status_str = some st → env.quote_b64 = some qb →
        env.quote_raw = some qr → SgxQuote.parse_from qr = some q →
        ¬(b0 = 4 ∧ rest = q.isv_enclave_report.report_data) →
        AttestationReport.from_cert env
          = FromCertResult.err AttestationError.ReportError) := by
  constructor
  · intro env r h
    obtain ⟨pl, ts, fresh, st, hx, -, -, -, -, -, -⟩ := from_cert_ok_inv h
    exact ⟨pl, hx⟩
  · intro env b0 rest pl ts fresh st qb qr q tss hx he hs hr ht hc hg ha hts
      htn hqf hst hqb hqr hq hkey
    simp [AttestationReport.from_cert, hx, he, hs, hr, ht, hc, hg, ha, hts,
      htn, hqf, hst, hqb, hqr, hq, hkey]

set_option maxRecDepth 10000 in
/-- Witness for C1 at concrete inputs: the success environment `goodEnv`
carries the uncompressed key bound to the report data, and `badKeyEnv`
(compressed first byte 2) is rejected with `ReportError`. -/
theorem from_cert_key_binding_witness :
    (∃ pl, goodEnv.x509 =
      some (4 :: goodReport.sgx_quote_body.isv_enclave_report.report_data, pl))
    ∧ AttestationReport.from_cert badKeyEnv
        = FromCertResult.err AttestationError.ReportError :=
  ⟨from_cert_key_binding.1 goodEnv goodReport (by decide),
   from_cert_key_binding.2 badKeyEnv 2 (List.replicate 64 0) []
     fixtureTimestampNs 9 ("GROUP_OUT_OF_DATE") ("base64-quote-body")
     goodQuoteBytes goodQuote ("2020-02-11T22:25:59.682915")
     rfl rfl rfl rfl rfl rfl rfl rfl rfl rfl (by decide) rfl rfl rfl
     (by decide) (by decide)⟩

set_option maxRecDepth 10000 in
/-- C2: the code can panic, contrary to the claim: when the root store
rejects the caller-supplied root CA certificate
(`root_store.add(...).expect("Failed to add CA")`), and when the
extracted public-key bit string is empty (`raw_pub_k[0]` is out of
bounds); both environments below otherwise satisfy every stage. -/
theorem from_cert_crash_cases :
    AttestationReport.from_cert rejectedRootEnv = FromCertResult.crash
    ∧ AttestationReport.from_cert emptyKeyEnv = FromCertResult.crash :=
  ⟨by decide, by decide⟩

/-- C3: on success the freshness is the number of whole seconds between
the report timestamp (UTC) and the current time, saturated at zero for a
sub-second-future timestamp (the only future case that can succeed), and
a failing `u64` conversion of the second count is a `ReportError`. -/
theorem from_cert_freshness_spec :
    (∀ env r, AttestationReport.from_cert env = FromCertResult.ok r →
      ∃ ts, env.timestamp_ns = some ts
        ∧ r.freshness = specFreshnessSeconds ts env.now_ns)
    ∧ (∀ env k pl ts tss,
        env.x509 = some (k, pl) → env.endorsed_json_ok = true →
        env.signing_cert_ok = true → env.root_ca_accepted = true →
        env.time_convert_ok = true → env.chain_ok = true → env.sig_ok = true →
        env.attn_json_ok = true → env.timestamp_str = some tss →
        env.timestamp_ns = some ts → quote_freshness ts env.now_ns = none →
        AttestationReport.from_cert env
          = FromCertResult.err AttestationError.ReportError) := by
  constructor
  · intro env r h
    obtain ⟨pl, ts, fresh, st, hx, htn, hqf, hst, hfr, -, -⟩ := from_cert_ok_inv h
    refine ⟨ts, htn, ?_⟩
    rw [hfr]
    exact quote_freshness_spec hqf
  · intro env k pl ts tss hx he hs hr ht hc hg ha hts htn hqf
    simp [AttestationReport.from_cert, hx, he, hs, hr, ht, hc, hg, ha, hts,
      htn, hqf]

set_option maxRecDepth 10000 in
/-- Witness for C3: in `goodEnv` the freshness 9 equals the spec-side
count, and in `futureEnv` (timestamp two seconds in the future) the
conversion failure yields `ReportError`. -/
theorem from_cert_freshness_spec_witness :
    (∃ ts, goodEnv.timestamp_ns = some ts
      ∧ goodReport.freshness = specFreshnessSeconds ts goodEnv.now_ns)
    ∧ AttestationReport.from_cert futureEnv
        = FromCertResult.err AttestationError.ReportError :=
  ⟨from_cert_freshness_spec.1 goodEnv goodReport (by decide),
   from_cert_freshness_spec.2 futureEnv (4 :: List.replicate 64 0) []
     (fixtureNowNs + 2000000000) ("2020-02-11T22:26:11")
     rfl rfl rfl rfl rfl rfl rfl rfl rfl rfl (by decide)⟩

/-- C4: an attestation report whose timestamp is far enough in the future
that the truncated second count `(now - ts).num_seconds()` is negative
makes `from_cert` fail, and the error is `ReportError`. -/
theorem from_cert_future_timestamp :
    ∀ env k pl ts tss,
      env.x509 = some (k, pl) → env.endorsed_json_ok = true →
      env.signing_cert_ok = true → env.root_ca_accepted = true →
      env.time_convert_ok = true → env.chain_ok = true → env.sig_ok = true →
      env.attn_json_ok = true → env.timestamp_str = some tss →
      env.timestamp_ns = some ts →
      (env.now_ns - ts).tdiv 1000000000 < 0 →
      AttestationReport.from_cert env
        = FromCertResult.err AttestationError.ReportError := by
  intro env k pl ts tss hx he hs hr ht hc hg ha hts htn hneg
  have hqf : quote_freshness ts env.now_ns = none := by
    simp only [quote_freshness]
    rw [if_neg]
    omega
  simp [AttestationReport.from_cert, hx, he, hs, hr, ht, hc, hg, ha, hts,
    htn, hqf]

/-- Witness for C4: the two-second-future environment fails with
`ReportError`. -/
theorem from_cert_future_timestamp_witness :
    AttestationReport.from_cert futureEnv
      = FromCertResult.err AttestationError.ReportError :=
  from_cert_future_timestamp futureEnv (4 :: List.replicate 64 0) []
    (fixtureNowNs + 2000000000) ("2020-02-11T22:26:11")
    rfl rfl rfl rfl rfl rfl rfl rfl rfl rfl (by decide)

set_option maxRecDepth 10000 in
/-- C5 counterexample: with the fixture timestamp
`2020-02-11T22:25:59.682915` (UTC) and the clock at
`2020-02-11T22:26:09` UTC, the fractional part makes the elapsed time
9.317085 seconds, so the computed freshness is not 10: `from_cert`
succeeds with freshness 9. -/
theorem fixture_freshness_not_ten :
    AttestationReport.from_cert goodEnv = FromCertResult.ok goodReport
    ∧ goodReport.freshness = 9
    ∧ quote_freshness fixtureTimestampNs fixtureNowNs ≠ some 10 :=
  ⟨by decide, rfl, by decide⟩

/-- C5 amended: the fixture timestamp parses as UTC and the freshness the
code computes at `now = 2020-02-11T22:26:09` UTC is 9 seconds. -/
theorem fixture_freshness_nine :
    quote_freshness fixtureTimestampNs fixtureNowNs = some 9 := by decide

/-- C6: on a 432-byte input, versions 1 and 2 reject any discriminator
other than 0 (Unlinkable) and 1 (Linkable), version 3 rejects any
discriminator other than 2 (P256_256) and 3 (P384_384) — in particular
1 — and any version other than 1, 2 or 3 is rejected; every rejection is
the parse error (`none`). -/
theorem quote_header_validation :
    ∀ bytes : List Nat, bytes.length = 432 →
      ((u16_from_le (slice bytes 0 2) = 1 ∨ u16_from_le (slice bytes 0 2) = 2) →
        u16_from_le (slice bytes 2 2) ≠ 0 → u16_from_le (slice bytes 2 2) ≠ 1 →
        SgxQuote.parse_from bytes = none)
      ∧ (u16_from_le (slice bytes 0 2) = 3 →
        u16_from_le (slice bytes 2 2) ≠ 2 → u16_from_le (slice bytes 2 2) ≠ 3 →
        SgxQuote.parse_from bytes = none)
      ∧ (u16_from_le (slice bytes 0 2) ≠ 1 → u16_from_le (slice bytes 0 2) ≠ 2 →
        u16_from_le (slice bytes 0 2) ≠ 3 → SgxQuote.parse_from bytes = none) := by
  intro bytes h
  rw [quote_parse_of_length h]
  refine ⟨?_, ?_, ?_⟩
  · rintro (hv | hv) hd0 hd1 <;> simp [quoteVersionOf, hv, hd0, hd1]
  · intro hv hd2 hd3
    simp [quoteVersionOf, hv, hd2, hd3]
  · intro hv1 hv2 hv3
    simp [quoteVersionOf, hv1, hv2, hv3]

set_option maxRecDepth 10000 in
/-- Witness for C6: a 432-byte quote with version 3 and discriminator 1
is rejected. -/
theorem quote_header_validation_witness :
    SgxQuote.parse_from (3 :: 0 :: 1 :: 0 :: List.replicate 428 0) = none :=
  (quote_header_validation (3 :: 0 :: 1 :: 0 :: List.replicate 428 0)
    (by decide)).2.1 (by decide) (by decide) (by decide)

set_option maxRecDepth 10000 in
/-- C7: `SgxQuote::parse_from` succeeds only on exactly 432 bytes (431-
and 433-byte inputs are parse errors) and `SgxEnclaveReport::parse_from`
only on exactly 384; on success the cursor equals the input length, so
each parser consumed its whole input. -/
theorem parse_exact_length :
    (∀ bytes : List Nat, ∀ q : SgxQuote,
      SgxQuote.parse_from bytes = some q → bytes.length = 432)
    ∧ (∀ bytes : List Nat, ∀ r : SgxEnclaveReport,
      SgxEnclaveReport.parse_from bytes = some r → bytes.length = 384)
    ∧ SgxQuote.parse_from (2 :: 0 :: 1 :: 0 :: List.replicate 427 0) = none
    ∧ SgxQuote.parse_from (2 :: 0 :: 1 :: 0 :: List.replicate 429 0) = none :=
  ⟨fun _ _ h => quote_parse_length h, fun _ _ h => enclave_parse_length h,
   by decide, by decide⟩

set_option maxRecDepth 10000 in
/-- Witness for C7 at concrete successful parses. -/
theorem parse_exact_length_witness :
    goodQuoteBytes.length = 432 ∧ (slice goodQuoteBytes 48 384).length = 384 :=
  ⟨parse_exact_length.1 goodQuoteBytes goodQuote (by decide),
   parse_exact_length.2.1 (slice goodQuoteBytes 48 384)
     (enclaveOf (slice goodQuoteBytes 48 384)) (by decide)⟩

/-- C8: the status mapping is total and maps exactly as tabulated; every
string other than the eight recognized ones maps to `UnknownBadStatus`
and never to an error. -/
theorem sgx_quote_status_mapping :
    SgxQuoteStatus.fromString ("OK") = SgxQuoteStatus.OK
    ∧ SgxQuoteStatus.fromString ("KEY_REVOKED")
        = SgxQuoteStatus.AttestationKeyRevoked
    ∧ SgxQuoteStatus.fromString ("GROUP_OUT_OF_DATE")
        = SgxQuoteStatus.TcbOutOfDate
    ∧ SgxQuoteStatus.fromString ("TCB_OUT_OF_DATE")
        = SgxQuoteStatus.TcbOutOfDate
    ∧ SgxQuoteStatus.fromString ("CONFIGURATION_NEEDED")
        = SgxQuoteStatus.ConfigurationNeeded
    ∧ SgxQuoteStatus.fromString ("OUT_OF_DATE_CONFIGURATION_NEEDED")
        = SgxQuoteStatus.TcbOutOfDateAndConfigurationNeeded
    ∧ SgxQuoteStatus.fromString ("SIGNATURE_INVALID")
        = SgxQuoteStatus.SignatureInvalid
    ∧ SgxQuoteStatus.fromString ("SW_HARDENING_NEEDED")
        = SgxQuoteStatus.SwHardeningNeeded
    ∧ SgxQuoteStatus.fromString ("banana") = SgxQuoteStatus.UnknownBadStatus
    ∧ (∀ s : String,
        s ≠ "OK" → s ≠ "KEY_REVOKED" → s ≠ "GROUP_OUT_OF_DATE" →
        s ≠ "TCB_OUT_OF_DATE" → s ≠ "CONFIGURATION_NEEDED" →
        s ≠ "OUT_OF_DATE_CONFIGURATION_NEEDED" → s ≠ "SIGNATURE_INVALID" →
        s ≠ "SW_HARDENING_NEEDED" →
        SgxQuoteStatus.fromString s = SgxQuoteStatus.UnknownBadStatus) := by
  refine ⟨by decide, by decide, by decide, by decide, by decide, by decide,
    by decide, by decide, by decide, ?_⟩
  intro s n1 n2 n3 n4 n5 n6 n7 n8
  simp [SgxQuoteStatus.fromString, n1, n2, n3, n4, n5, n6, n7, n8]

/-- Witness for C8: an arbitrary unrecognized string maps to
`UnknownBadStatus`. -/
theorem sgx_quote_status_mapping_witness :
    SgxQuoteStatus.fromString ("pineapple") = SgxQuoteStatus.UnknownBadStatus :=
  sgx_quote_status_mapping.2.2.2.2.2.2.2.2.2 ("pineapple")
    (by decide) (by decide) (by decide) (by decide) (by decide) (by decide)
    (by decide) (by decide)

/-- The enclave report of a 432-byte quote, re-addressed at quote
offsets: the embedded report starts at offset 48. -/
theorem enclaveOf_slice48 (b : List Nat) :
    enclaveOf (slice b 48 384) =
      ⟨slice b 48 16, u32_from_le (slice b 64 4), slice b 96 16,
       slice b 112 32, slice b 176 32, u16_from_le (slice b 304 2),
       u16_from_le (slice b 306 2), slice b 368 64⟩ := by
  have g1 : slice (slice b 48 384) 0 16 = slice b 48 16 :=
    @slice_slice b 48 384 0 16 (by norm_num)
  have g2 : slice (slice b 48 384) 16 4 = slice b 64 4 :=
    @slice_slice b 48 384 16 4 (by norm_num)
  have g3 : slice (slice b 48 384) 48 16 = slice b 96 16 :=
    @slice_slice b 48 384 48 16 (by norm_num)
  have g4 : slice (slice b 48 384) 64 32 = slice b 112 32 :=
    @slice_slice b 48 384 64 32 (by norm_num)
  have g5 : slice (slice b 48 384) 128 32 = slice b 176 32 :=
    @slice_slice b 48 384 128 32 (by norm_num)
  have g6 : slice (slice b 48 384) 256 2 = slice b 304 2 :=
    @slice_slice b 48 384 256 2 (by norm_num)
  have g7 : slice (slice b 48 384) 258 2 = slice b 306 2 :=
    @slice_slice b 48 384 258 2 (by norm_num)
  have g8 : slice (slice b 48 384) 320 64 = slice b 368 64 :=
    @slice_slice b 48 384 320 64 (by norm_num)
  unfold enclaveOf
  rw [g1, g2, g3, g4, g5, g6, g7, g8]

/-- C9: two 432-byte inputs that agree everywhere outside the reserved
regions of the embedded enclave report parse to the same outcome: both
fail, or both succeed with equal quotes; the reserved bytes are consumed
but influence nothing. -/
theorem quote_reserved_independent :
    ∀ b1 b2 : List Nat, b1.length = 432 → b2.length = 432 →
      (∀ i, i < 432 → ¬ reservedQuoteIdx i → b1.getD i 0 = b2.getD i 0) →
      SgxQuote.parse_from b1 = SgxQuote.parse_from b2 := by
  intro b1 b2 h1 h2 hagree
  have key : ∀ off n : Nat, off + n ≤ 432 →
      (∀ i, off ≤ i → i < off + n → ¬ reservedQuoteIdx i) →
      slice b1 off n = slice b2 off n := by
    intro off n hb hres
    exact slice_congr (by omega) (by omega)
      (fun i hi1 hi2 => hagree i (by omega) (hres i hi1 hi2))
  have e0 := key 0 2 (by norm_num) (fun i hi1 hi2 => by
    simp only [reservedQuoteIdx, reservedEnclaveIdx, not_and, not_or]
    omega)
  have e1 := key 2 2 (by norm_num) (fun i hi1 hi2 => by
    simp only [reservedQuoteIdx, reservedEnclaveIdx, not_and, not_or]
    omega)
  have e2 := key 4 4 (by norm_num) (fun i hi1 hi2 => by
    simp only [reservedQuoteIdx, reservedEnclaveIdx, not_and, not_or]
    omega)
  have e3 := key 8 2 (by norm_num) (fun i hi1 hi2 => by
    simp only [reservedQuoteIdx, reservedEnclaveIdx, not_and, not_or]
    omega)
  have e4 := key 10 2 (by norm_num) (fun i hi1 hi2 => by
    simp only [reservedQuoteIdx, reservedEnclaveIdx, not_and, not_or]
    omega)
  have e5 := key 12 16 (by norm_num) (fun i hi1 hi2 => by
    simp only [reservedQuoteIdx, reservedEnclaveIdx, not_and, not_or]
    omega)
  have e6 := key 28 20 (by norm_num) (fun i hi1 hi2 => by
    simp only [reservedQuoteIdx, reservedEnclaveIdx, not_and, not_or]
    omega)
  have f1 := key 48 16 (by norm_num) (fun i hi1 hi2 => by
    simp only [reservedQuoteIdx, reservedEnclaveIdx, not_and, not_or]
    omega)
  have f2 := key 64 4 (by norm_num) (fun i hi1 hi2 => by
    simp only [reservedQuoteIdx, reservedEnclaveIdx, not_and, not_or]
    omega)
  have f3 := key 96 16 (by norm_num) (fun i hi1 hi2 => by
    simp only [reservedQuoteIdx, reservedEnclaveIdx, not_and, not_or]
    omega)
  have f4 := key 112 32 (by norm_num) (fun i hi1 hi2 => by
    simp only [reservedQuoteIdx, reservedEnclaveIdx, not_and, not_or]
    omega)
  have f5 := key 176 32 (by norm_num) (fun i hi1 hi2 => by
    simp only [reservedQuoteIdx, reservedEnclaveIdx, not_and, not_or]
    omega)
  have f6 := key 304 2 (by norm_num) (fun i hi1 hi2 => by
    simp only [reservedQuoteIdx, reservedEnclaveIdx, not_and, not_or]
    omega)
  have f7 := key 306 2 (by norm_num) (fun i hi1 hi2 => by
    simp only [reservedQuoteIdx, reservedEnclaveIdx, not_and, not_or]
    omega)
  have f8 := key 368 64 (by norm_num) (fun i hi1 hi2 => by
    simp only [reservedQuoteIdx, reservedEnclaveIdx, not_and, not_or]
    omega)
  have hqo : ∀ v, quoteOf v b1 = quoteOf v b2 := by
    intro v
    unfold quoteOf
    rw [enclaveOf_slice48 b1, enclaveOf_slice48 b2,
      e2, e3, e4, e5, e6, f1, f2, f3, f4, f5, f6, f7, f8]
  have hfun : (fun v => quoteOf v b1) = (fun v => quoteOf v b2) := funext hqo
  rw [quote_parse_of_length h1, quote_parse_of_length h2, e0, e1, hfun]

set_option maxRecDepth 10000 in
/-- Witness for C9: changing a byte inside the reserved region 20..48 of
the embedded enclave report leaves the parse unchanged. -/
theorem quote_reserved_independent_witness :
    SgxQuote.parse_from goodQuoteBytes = SgxQuote.parse_from tweakedQuoteBytes :=
  quote_reserved_independent goodQuoteBytes tweakedQuoteBytes
    (by decide) (by decide) (by decide)

/-- C10: a 432-byte input with a legal version and discriminator pair
always parses successfully; no byte outside the four-byte header is
validated. -/
theorem quote_header_sufficient :
    ∀ bytes : List Nat, bytes.length = 432 →
      (((u16_from_le (slice bytes 0 2) = 1 ∨ u16_from_le (slice bytes 0 2) = 2)
          ∧ (u16_from_le (slice bytes 2 2) = 0 ∨ u16_from_le (slice bytes 2 2) = 1))
        ∨ (u16_from_le (slice bytes 0 2) = 3
          ∧ (u16_from_le (slice bytes 2 2) = 2 ∨ u16_from_le (slice bytes 2 2) = 3))) →
      (SgxQuote.parse_from bytes).isSome := by
  intro bytes h hleg
  rw [quote_parse_of_length h]
  rcases hleg with ⟨hv | hv, hd | hd⟩ | ⟨hv, hd | hd⟩ <;>
    simp [quoteVersionOf, hv, hd]

set_option maxRecDepth 10000 in
/-- Witness for C10: the all-zero-body version 2 Linkable quote parses. -/
theorem quote_header_sufficient_witness :
    (SgxQuote.parse_from goodQuoteBytes).isSome :=
  quote_header_sufficient goodQuoteBytes (by decide) (by decide)

end TeaclaveAttestation
